import Mathlib

/-!
Shallow embedding of the request-processing core of the echo-server
repository (src/api/request.rs and src/pass.rs), together with proofs
about the parsing, authorization, credential-hashing and handler logic.

External collaborators (the argon2i primitive, the random byte source,
the SQL storage backend and the per-entity JSON decoders) are
parameterized: handlers take the argon2 function, the random bytes and a
`Db` oracle as arguments and record every storage operation they issue
in a trace, so that claims about which storage operations happen are
statements about that trace.
-/

namespace EchoServer

/-- Decidable equality of `Except` outcomes, used to evaluate the
embedding on concrete inputs. -/
instance {ε α : Type} [DecidableEq ε] [DecidableEq α] : DecidableEq (Except ε α) :=
  fun a b =>
    match a, b with
    | .ok x, .ok y =>
      if h : x = y then .isTrue (by rw [h])
      else .isFalse (by intro hh; cases hh; exact h rfl)
    | .error x, .error y =>
      if h : x = y then .isTrue (by rw [h])
      else .isFalse (by intro hh; cases hh; exact h rfl)
    | .ok _, .error _ => .isFalse (by intro hh; cases hh)
    | .error _, .ok _ => .isFalse (by intro hh; cases hh)

/-- Rust's `u8::is_ascii_whitespace`: space, tab, newline, form feed,
carriage return (used by `str::split_ascii_whitespace`). -/
def isAsciiWhitespaceChar (c : Char) : Bool :=
  c = ' ' || c = '\t' || c = '\n' || c = '\x0c' || c = '\r'

/-- Split a character list at every separator character, keeping the
(possibly empty) chunks between separators; `acc` holds the reversed
current chunk. -/
def splitChars (sep : Char → Bool) : List Char → List Char → List (List Char)
  | [], acc => [acc.reverse]
  | c :: cs, acc =>
    if sep c then acc.reverse :: splitChars sep cs []
    else splitChars sep cs (c :: acc)

/-- Rust's `str::split_ascii_whitespace`: split on ASCII whitespace,
dropping empty substrings. -/
def splitAsciiWhitespace (s : String) : List String :=
  ((splitChars isAsciiWhitespaceChar s.data []).filter (fun t => t ≠ [])).map
    (fun t => String.mk t)

/-- A UTF-8 continuation byte (0x80–0xBF). -/
def isUtf8Cont (b : Nat) : Bool := 0x80 ≤ b && b ≤ 0xBF

/-- Validity of a byte sequence as UTF-8, as checked by Rust's
`String::from_utf8` / `str::from_utf8` (rejects overlong encodings,
surrogates and values above U+10FFFF). -/
def isValidUtf8 : List Nat → Bool
  | [] => true
  | b :: rest =>
    if b ≤ 0x7F then isValidUtf8 rest
    else if 0xC2 ≤ b && b ≤ 0xDF then
      match rest with
      | b1 :: r => isUtf8Cont b1 && isValidUtf8 r
      | [] => false
    else if b = 0xE0 then
      match rest with
      | b1 :: b2 :: r => (0xA0 ≤ b1 && b1 ≤ 0xBF) && isUtf8Cont b2 && isValidUtf8 r
      | _ => false
    else if (0xE1 ≤ b && b ≤ 0xEC) || b = 0xEE || b = 0xEF then
      match rest with
      | b1 :: b2 :: r => isUtf8Cont b1 && isUtf8Cont b2 && isValidUtf8 r
      | _ => false
    else if b = 0xED then
      match rest with
      | b1 :: b2 :: r => (0x80 ≤ b1 && b1 ≤ 0x9F) && isUtf8Cont b2 && isValidUtf8 r
      | _ => false
    else if b = 0xF0 then
      match rest with
      | b1 :: b2 :: b3 :: r =>
        (0x90 ≤ b1 && b1 ≤ 0xBF) && isUtf8Cont b2 && isUtf8Cont b3 && isValidUtf8 r
      | _ => false
    else if 0xF1 ≤ b && b ≤ 0xF3 then
      match rest with
      | b1 :: b2 :: b3 :: r =>
        isUtf8Cont b1 && isUtf8Cont b2 && isUtf8Cont b3 && isValidUtf8 r
      | _ => false
    else if b = 0xF4 then
      match rest with
      | b1 :: b2 :: b3 :: r =>
        (0x80 ≤ b1 && b1 ≤ 0x8F) && isUtf8Cont b2 && isUtf8Cont b3 && isValidUtf8 r
      | _ => false
    else false

/-- The argon2i primitive (`argon2rs::argon2i_simple`) is an external
black box: any function from the plaintext password and the salt's
bytes to the digest bytes.  (In the source the salt is passed as a
`&str`; since UTF-8 decoding is injective on the valid byte sequences
the handlers feed it, a function of the salt's bytes is fully general.) -/
abbrev Argon2 := String → List Nat → List Nat

/-- `Password` from src/pass.rs: a stored credential, hash plus salt. -/
structure Password where
  hash : List Nat
  salt : List Nat
  deriving DecidableEq, Repr

/-- `Password::hash` from src/pass.rs.  `bytes` is the outcome of the
32-byte `getrandom` call.  The source runs `String::from_utf8(bytes)?`
to build the salt string, so it fails (returns `Err`, here `none`)
whenever the random bytes are not valid UTF-8; on success the stored
salt (`salt.into_bytes()`) is exactly the generated bytes and the
stored hash is the argon2i digest of (password, salt). -/
def Password.hashPassword (argon2 : Argon2) (password : String) (bytes : List Nat) : Option Password :=
  if isValidUtf8 bytes then
    some { hash := argon2 password bytes, salt := bytes }
  else none

/-- `Password::is_valid` from src/pass.rs: recompute the digest of the
candidate password under the stored salt and compare with the stored
hash.  The source first runs `String::from_utf8(self.salt)` (unwrapped
in pass.rs, `?`-propagated in the version request.rs calls); an invalid
stored salt is modelled as `none`. -/
def Password.is_valid (argon2 : Argon2) (self : Password) (password : String) : Option Bool :=
  if isValidUtf8 self.salt then
    some (decide (argon2 password self.salt = self.hash))
  else none

/-- `api::User` as consumed by request.rs: all fields optional on the wire. -/
structure User where
  email : Option String
  password : Option String
  public_key : Option (List Nat)
  deriving DecidableEq, Repr

/-- `api::Conversation` as consumed by request.rs. -/
structure Conversation where
  id : Option Int
  name : Option (List Nat)
  deriving DecidableEq, Repr

/-- `api::Message` as consumed by request.rs. -/
structure Message where
  data : Option (List Nat)
  media_type : Option String
  timestamp : Option Int
  signature : Option (List Nat)
  deriving DecidableEq, Repr

/-- Modelled from the spec: the `auth::Login` session state (the auth
module is not under src/; request.rs reads `login.is_authenticated` and
`login.email` and calls `login.authenticate(email)`).  Per spec §3/§4.2
it holds an identity and an authenticated flag. -/
structure Login where
  email : String
  is_authenticated : Bool
  deriving DecidableEq, Repr

/-- Modelled from the spec: `Login::authenticate(identity)` sets
`is_authenticated = true` and stores the identity (spec §4.2). -/
def Login.authenticate (_self : Login) (email : String) : Login :=
  { email := email, is_authenticated := true }

/-- The error outcomes of the handlers.  `invalidInput` and
`permissionDenied` carry the message of the `io::Error` the source
builds; `indexOutOfBounds` models a Rust panic from indexing an empty
`Vec`; `utf8Error` a propagated/panicking UTF-8 decode failure;
`storageError` a propagated `sqlx` error (including row-not-found from
`fetch_one`); `decodeError` a propagated entity-decoder failure. -/
inductive Err where
  | invalidInput (msg : String)
  | permissionDenied (msg : String)
  | indexOutOfBounds
  | utf8Error
  | storageError
  | decodeError
  deriving DecidableEq, Repr

/-- `api::response::Response`: status plus optional echoed entity lists. -/
structure Response where
  status : Int
  conversations : Option (List Conversation)
  messages : Option (List Message)
  users : Option (List User)
  deriving DecidableEq, Repr

/-- The response every success path of request.rs builds. -/
def okResponse : Response :=
  { status := 1, conversations := none, messages := none, users := none }

/-- The logical storage operations request.rs issues, one constructor
per SQL file, carrying exactly the bound parameters. -/
inductive StorageOp where
  | fetchCredential (email : String)
  | insertUser (email : String) (public_key : List Nat) (hash : List Nat) (salt : List Nat)
  | insertConversation (name : List Nat)
  | insertConversationMember (email : String) (name : List Nat)
  | insertMessage (email : String) (data : List Nat) (media_type : String)
      (timestamp : Int) (signature : List Nat)
  | fetchConversation (email : String)
  | fetchMessage (email : String) (conversation_id : Int)
  | fetchUser (email : String) (conversation_id : Int)
  deriving DecidableEq, Repr

/-- The storage backend, an external oracle: `credential email` is the
(pass, salt) row `verify-user.sql` fetches (`none` = `fetch_one`
fails), and `execOk op` says whether executing `op` succeeds. -/
structure Db where
  credential : String → Option (List Nat × List Nat)
  execOk : StorageOp → Bool

/-- `Operation` from request.rs. -/
inductive Operation where
  | Create
  | Read
  | Update
  | Delete
  | Verify
  deriving DecidableEq, Repr

/-- `Target` from request.rs. -/
inductive Target where
  | Conversations
  | Messages
  | Users
  deriving DecidableEq, Repr

/-- `Request` from request.rs: the canonical form of a request. -/
structure Request where
  operation : Operation
  target : Target
  users : Option (List User)
  messages : Option (List Message)
  conversations : Option (List Conversation)
  deriving DecidableEq, Repr

/-- The already-JSON-parsed inbound envelope that `Request::from_json`
consumes (serde_json parsing itself is an external collaborator).
`function = none` models a missing or non-string `function` field;
a list field is `none` when absent or not an array.  Modelled from the
spec: the per-entity decoders (`api::User::from_json` etc.) are not
under src/, so each array element is carried as an already-run decoder
outcome, `none` meaning that element fails to decode. -/
structure Envelope where
  function : Option String
  users : Option (List (Option User))
  messages : Option (List (Option Message))
  conversations : Option (List (Option Conversation))

/-- The per-element decode loop of `Request::from_json`: the first
decoder failure aborts the whole parse. -/
def decodeList {α : Type} : List (Option α) → Except Err (List α)
  | [] => .ok []
  | none :: _ => .error .decodeError
  | some a :: rest => (decodeList rest).map (fun as => a :: as)

/-- One optional list field of the envelope, as `from_json` treats it:
absent stays absent, present is decoded element by element. -/
def decodeListField {α : Type} : Option (List (Option α)) → Except Err (Option (List α))
  | some l => (decodeList l).map some
  | none => .ok none

/-- `Request::split_function`: collect the ASCII-whitespace-separated
tokens and take elements 0 and 1.  The source indexes the token vector
unchecked, so fewer than two tokens is a panic (index out of bounds),
not an `Err` return. -/
def Request.split_function (function : String) : Except Err (String × String) :=
  match splitAsciiWhitespace function with
  | t0 :: t1 :: _ => .ok (t0, t1)
  | _ => .error .indexOutOfBounds

/-- The `operation` match arm of `Request::from_json`. -/
def parseOperation (operation : String) : Except Err Operation :=
  if operation = "VERIFY" then .ok .Verify
  else if operation = "CREATE" then .ok .Create
  else if operation = "READ" then .ok .Read
  else if operation = "UPDATE" then .ok .Update
  else if operation = "DELETE" then .ok .Delete
  else .error (.invalidInput "Unknown request")

/-- The `target` match arm of `Request::from_json`. -/
def parseTarget (target : String) : Except Err Target :=
  if target = "CONVERSATIONS" then .ok .Conversations
  else if target = "MESSAGES" then .ok .Messages
  else if target = "USERS" then .ok .Users
  else .error (.invalidInput "Unknown target")

/-- `Request::from_json`, after serde_json parsing: read the `function`
string (missing/non-string is `InvalidInput "Invalid request function"`),
split it into its first two tokens, classify them, and decode the three
optional entity lists. -/
def Request.from_json (env : Envelope) : Except Err Request :=
  match env.function with
  | none => .error (.invalidInput "Invalid request function")
  | some f =>
    match Request.split_function f with
    | .error e => .error e
    | .ok (op, tg) =>
      match parseOperation op with
      | .error e => .error e
      | .ok operation =>
        match parseTarget tg with
        | .error e => .error e
        | .ok target =>
          match decodeListField env.users with
          | .error e => .error e
          | .ok users =>
            match decodeListField env.messages with
            | .error e => .error e
            | .ok messages =>
              match decodeListField env.conversations with
              | .error e => .error e
              | .ok conversations =>
                .ok { operation := operation, target := target, users := users,
                      messages := messages, conversations := conversations }

/-- Outcome of a handler that does not touch the session: result plus
the chronological trace of storage operations it issued. -/
structure HOut where
  result : Except Err Response
  ops : List StorageOp
  deriving DecidableEq, Repr

/-- Outcome of `verify_users`: result, resulting session state, and
the trace of storage operations issued. -/
structure VerifyOut where
  result : Except Err Response
  login : Login
  ops : List StorageOp
  deriving DecidableEq, Repr

/-- `Request::verify_users` from request.rs.  Reads the remote data
(`users` list, `users[0]`, its `email` and `password`), fetches the
stored credential row, and compares digests via `Password::is_valid`;
a match authenticates the session, a mismatch is `PermissionDenied
"Invalid password"`.  `users[0]` on an empty list is a panic
(`indexOutOfBounds`); a failed credential fetch (row not found or any
other `sqlx` error) propagates as `storageError`. -/
def Request.verify_users (argon2 : Argon2) (self : Request) (login : Login) (db : Db) :
    VerifyOut :=
  match self.users with
  | none => ⟨.error (.invalidInput "Missing 'users' list"), login, []⟩
  | some users =>
    match users with
    | [] => ⟨.error .indexOutOfBounds, login, []⟩
    | user :: _ =>
      match user.email with
      | none => ⟨.error (.invalidInput "Missing 'email' field for 'user'"), login, []⟩
      | some email =>
        match user.password with
        | none => ⟨.error (.invalidInput "Missing 'password' field for 'user'"), login, []⟩
        | some remote_pass =>
          match db.credential email with
          | none => ⟨.error .storageError, login, [.fetchCredential email]⟩
          | some (pass, salt) =>
            let local_pass : Password := { hash := pass, salt := salt }
            match Password.is_valid argon2 local_pass remote_pass with
            | none => ⟨.error .utf8Error, login, [.fetchCredential email]⟩
            | some true =>
                ⟨.ok okResponse, Login.authenticate login email, [.fetchCredential email]⟩
            | some false =>
                ⟨.error (.permissionDenied "Invalid password"), login,
                  [.fetchCredential email]⟩

/-- The per-user loop of `Request::create_users`: check `email`,
`password`, `public_key` in order, salt-and-hash the password (`rnd k`
is the outcome of the `getrandom` call for the k-th processed user) and
issue one insert-user write. -/
def createUsersLoop (argon2 : Argon2) (rnd : Nat → List Nat) (db : Db) (k : Nat) :
    List User → Except Err Unit × List StorageOp
  | [] => (.ok (), [])
  | user :: rest =>
    match user.email with
    | none => (.error (.invalidInput "Missing 'email' field for 'user'"), [])
    | some email =>
      match user.password with
      | none => (.error (.invalidInput "Missing 'password' field for 'user'"), [])
      | some password =>
        match user.public_key with
        | none => (.error (.invalidInput "Missing 'public_key' field for 'user'"), [])
        | some public_key =>
          match Password.hashPassword argon2 password (rnd k) with
          | none => (.error .utf8Error, [])
          | some pw =>
            let op := StorageOp.insertUser email public_key pw.hash pw.salt
            if db.execOk op then
              match createUsersLoop argon2 rnd db (k + 1) rest with
              | (r, ops) => (r, op :: ops)
            else (.error .storageError, [op])

/-- `Request::create_users` from request.rs: requires the `users` list,
then runs the per-user loop (no authorization check — user creation is
a bootstrap entry point). -/
def Request.create_users (argon2 : Argon2) (rnd : Nat → List Nat) (self : Request)
    (db : Db) : HOut :=
  match self.users with
  | none => ⟨.error (.invalidInput "Missing 'users' list"), []⟩
  | some users =>
    match createUsersLoop argon2 rnd db 0 users with
    | (.ok _, ops) => ⟨.ok okResponse, ops⟩
    | (.error e, ops) => ⟨.error e, ops⟩

/-- The "add remaining users" loop of `Request::create_conversations`:
each user needs `email`, and one member-insert write is issued per user. -/
def addMembersLoop (db : Db) (name : List Nat) :
    List User → Except Err Unit × List StorageOp
  | [] => (.ok (), [])
  | user :: rest =>
    match user.email with
    | none => (.error (.invalidInput "Missing 'email' field for 'user'"), [])
    | some email =>
      let op := StorageOp.insertConversationMember email name
      if db.execOk op then
        match addMembersLoop db name rest with
        | (r, ops) => (r, op :: ops)
      else (.error .storageError, [op])

/-- `Request::create_conversations` from request.rs: authorization gate
first, then the `users` and `conversations` lists, `conversations[0]`
(panic when empty), its `name` (which must be valid UTF-8), then the
conversation insert, the creator member insert, and the member loop. -/
def Request.create_conversations (self : Request) (login : Login) (db : Db) : HOut :=
  if login.is_authenticated = false then
    ⟨.error (.permissionDenied "Not authenticated"), []⟩
  else
    match self.users with
    | none => ⟨.error (.invalidInput "Missing 'users' list"), []⟩
    | some users =>
      match self.conversations with
      | none => ⟨.error (.invalidInput "Missing 'conversations' list"), []⟩
      | some conversations =>
        match conversations with
        | [] => ⟨.error .indexOutOfBounds, []⟩
        | conversation :: _ =>
          match conversation.name with
          | none => ⟨.error (.invalidInput "Missing 'name' field for 'conversation'"), []⟩
          | some name =>
            if isValidUtf8 name = false then ⟨.error .utf8Error, []⟩
            else
              let op1 := StorageOp.insertConversation name
              if db.execOk op1 = false then ⟨.error .storageError, [op1]⟩
              else
                let op2 := StorageOp.insertConversationMember login.email name
                if db.execOk op2 = false then ⟨.error .storageError, [op1, op2]⟩
                else
                  match addMembersLoop db name users with
                  | (.ok _, ops) => ⟨.ok okResponse, op1 :: op2 :: ops⟩
                  | (.error e, ops) => ⟨.error e, op1 :: op2 :: ops⟩

/-- The per-message loop of `Request::create_messages`: check `data`,
`media_type`, `timestamp`, `signature`, and `conversations[0].id` (in
that order; the id error message says 'message', and the id, though
required, is never bound into the insert), then issue one
message-insert write attributed to the session's email. -/
def createMessagesLoop (login : Login) (db : Db) (conversation : Conversation) :
    List Message → Except Err Unit × List StorageOp
  | [] => (.ok (), [])
  | message :: rest =>
    match message.data with
    | none => (.error (.invalidInput "Missing 'data' field for 'message'"), [])
    | some data =>
      match message.media_type with
      | none => (.error (.invalidInput "Missing 'media_type' field for 'message'"), [])
      | some media_type =>
        match message.timestamp with
        | none => (.error (.invalidInput "Missing 'timestamp' field for 'message'"), [])
        | some timestamp =>
          match message.signature with
          | none => (.error (.invalidInput "Missing 'signature' field for 'message'"), [])
          | some signature =>
            match conversation.id with
            | none => (.error (.invalidInput "Missing 'id' field for 'message'"), [])
            | some _ =>
              let op := StorageOp.insertMessage login.email data media_type timestamp
                signature
              if db.execOk op then
                match createMessagesLoop login db conversation rest with
                | (r, ops) => (r, op :: ops)
              else (.error .storageError, [op])

/-- `Request::create_messages` from request.rs: authorization gate
first, then the `messages` and `conversations` lists and
`conversations[0]` (panic when empty), then the per-message loop. -/
def Request.create_messages (self : Request) (login : Login) (db : Db) : HOut :=
  if login.is_authenticated = false then
    ⟨.error (.permissionDenied "Not authenticated"), []⟩
  else
    match self.messages with
    | none => ⟨.error (.invalidInput "Missing 'messages' list"), []⟩
    | some messages =>
      match self.conversations with
      | none => ⟨.error (.invalidInput "Missing 'conversations' list"), []⟩
      | some conversations =>
        match conversations with
        | [] => ⟨.error .indexOutOfBounds, []⟩
        | conversation :: _ =>
          match createMessagesLoop login db conversation messages with
          | (.ok _, ops) => ⟨.ok okResponse, ops⟩
          | (.error e, ops) => ⟨.error e, ops⟩

/-- `Request::read_conversations` from request.rs: authorization gate,
then a single conversation fetch by the session's email; the fetched
row is discarded and a bare success is returned. -/
def Request.read_conversations (_self : Request) (login : Login) (db : Db) : HOut :=
  if login.is_authenticated = false then
    ⟨.error (.permissionDenied "Not authenticated"), []⟩
  else
    let op := StorageOp.fetchConversation login.email
    if db.execOk op then ⟨.ok okResponse, [op]⟩
    else ⟨.error .storageError, [op]⟩

/-- `Request::read_messages` from request.rs: authorization gate, the
`conversations` list, `conversations[0]` (panic when empty), its `id`,
then a single message fetch; the fetched row is discarded. -/
def Request.read_messages (self : Request) (login : Login) (db : Db) : HOut :=
  if login.is_authenticated = false then
    ⟨.error (.permissionDenied "Not authenticated"), []⟩
  else
    match self.conversations with
    | none => ⟨.error (.invalidInput "Missing 'conversations' list"), []⟩
    | some conversations =>
      match conversations with
      | [] => ⟨.error .indexOutOfBounds, []⟩
      | conversation :: _ =>
        match conversation.id with
        | none => ⟨.error (.invalidInput "Missing 'id' field for 'conversation'"), []⟩
        | some id =>
          let op := StorageOp.fetchMessage login.email id
          if db.execOk op then ⟨.ok okResponse, [op]⟩
          else ⟨.error .storageError, [op]⟩

/-- `Request::read_users` from request.rs: same shape as
`read_messages` but issuing the user fetch. -/
def Request.read_users (self : Request) (login : Login) (db : Db) : HOut :=
  if login.is_authenticated = false then
    ⟨.error (.permissionDenied "Not authenticated"), []⟩
  else
    match self.conversations with
    | none => ⟨.error (.invalidInput "Missing 'conversations' list"), []⟩
    | some conversations =>
      match conversations with
      | [] => ⟨.error .indexOutOfBounds, []⟩
      | conversation :: _ =>
        match conversation.id with
        | none => ⟨.error (.invalidInput "Missing 'id' field for 'conversation'"), []⟩
        | some id =>
          let op := StorageOp.fetchUser login.email id
          if db.execOk op then ⟨.ok okResponse, [op]⟩
          else ⟨.error .storageError, [op]⟩

/-! Helper predicates over the embedding, used to state the claims. -/

/-- All elements of one optional entity list of the envelope decode. -/
def listFieldOk {α : Type} : Option (List (Option α)) → Bool
  | some l => l.all Option.isSome
  | none => true

/-- All elements of every present entity list of the envelope decode. -/
def envDecodesOk (env : Envelope) : Bool :=
  listFieldOk env.users && listFieldOk env.messages && listFieldOk env.conversations

/-- The three fields `create_users` requires of every element. -/
def userFieldsComplete (u : User) : Bool :=
  u.email.isSome && u.password.isSome && u.public_key.isSome

/-- The error message `create_users` raises for the first missing field
of a user element, `none` when the element is complete. -/
def missingUserFieldMsg (u : User) : Option String :=
  match u.email with
  | none => some "Missing 'email' field for 'user'"
  | some _ =>
    match u.password with
    | none => some "Missing 'password' field for 'user'"
    | some _ =>
      match u.public_key with
      | none => some "Missing 'public_key' field for 'user'"
      | some _ => none

/-- The insert-user writes `create_users` issues for a run of complete
user elements, the k-th processed element salted with `rnd k`. -/
def expectedUserWrites (argon2 : Argon2) (rnd : Nat → List Nat) (k : Nat) :
    List User → List StorageOp
  | [] => []
  | u :: rest =>
    .insertUser (u.email.getD "") (u.public_key.getD [])
        (argon2 (u.password.getD "") (rnd k)) (rnd k) ::
      expectedUserWrites argon2 rnd (k + 1) rest

/-! Concrete sample data, used by the witnesses and counterexamples. -/

/-- A sample argon2i stand-in: digests depend only on the password. -/
def sampleArgon : Argon2 := fun p _ => if p = "right" then [1] else [2]

/-- A sample 32-byte random outcome that is valid UTF-8. -/
def sampleSalt : List Nat := List.replicate 32 0

/-- A sample database: one stored credential for `b@x` (digest `[1]`,
salt `sampleSalt`), every execute succeeding. -/
def sampleDb : Db :=
  ⟨fun e => if e = "b@x" then some ([1], sampleSalt) else none, fun _ => true⟩

/-- A sample database with no stored credentials. -/
def sampleDbNone : Db := ⟨fun _ => none, fun _ => true⟩

/-- A sample Verify-Users request for the given email and password. -/
def sampleVerifyReq (e p : String) : Request :=
  ⟨.Verify, .Users, some [⟨some e, some p, none⟩], none, none⟩

/-- C1: for every request and every session with `is_authenticated =
false`, each of `create_conversations`, `create_messages`,
`read_conversations`, `read_messages` and `read_users` fails with
`PermissionDenied "Not authenticated"` regardless of the payload, and
issues no storage operation (empty trace). -/
theorem unauthenticated_handlers_fail_closed (req : Request) (login : Login) (db : Db)
    (h : login.is_authenticated = false) :
    req.create_conversations login db =
      ⟨.error (.permissionDenied "Not authenticated"), []⟩ ∧
    req.create_messages login db = ⟨.error (.permissionDenied "Not authenticated"), []⟩ ∧
    req.read_conversations login db = ⟨.error (.permissionDenied "Not authenticated"), []⟩ ∧
    req.read_messages login db = ⟨.error (.permissionDenied "Not authenticated"), []⟩ ∧
    req.read_users login db = ⟨.error (.permissionDenied "Not authenticated"), []⟩ := by
  refine ⟨?_, ?_, ?_, ?_, ?_⟩ <;>
    simp [Request.create_conversations, Request.create_messages, Request.read_conversations,
      Request.read_messages, Request.read_users, h]

/-- Witness for C1 at a concrete unauthenticated session and request. -/
theorem unauthenticated_handlers_fail_closed_witness :
    Request.create_conversations ⟨.Create, .Conversations, none, none, none⟩ ⟨"", false⟩
      sampleDbNone = ⟨.error (.permissionDenied "Not authenticated"), []⟩ ∧
    Request.create_messages ⟨.Create, .Conversations, none, none, none⟩ ⟨"", false⟩
      sampleDbNone = ⟨.error (.permissionDenied "Not authenticated"), []⟩ ∧
    Request.read_conversations ⟨.Create, .Conversations, none, none, none⟩ ⟨"", false⟩
      sampleDbNone = ⟨.error (.permissionDenied "Not authenticated"), []⟩ ∧
    Request.read_messages ⟨.Create, .Conversations, none, none, none⟩ ⟨"", false⟩
      sampleDbNone = ⟨.error (.permissionDenied "Not authenticated"), []⟩ ∧
    Request.read_users ⟨.Create, .Conversations, none, none, none⟩ ⟨"", false⟩
      sampleDbNone = ⟨.error (.permissionDenied "Not authenticated"), []⟩ :=
  unauthenticated_handlers_fail_closed _ _ _ rfl

/-- C3 counterexample: a request that is both missing its required
lists and unauthenticated fails with `PermissionDenied`, not with the
claimed `InvalidInput` validation error — the source checks the
authorization gate before any payload validation. -/
theorem validation_order_counterexample :
    (Request.create_conversations ⟨.Create, .Conversations, none, none, none⟩ ⟨"", false⟩
      sampleDbNone).result = .error (.permissionDenied "Not authenticated") ∧
    (Request.create_conversations ⟨.Create, .Conversations, none, none, none⟩ ⟨"", false⟩
      sampleDbNone).result ≠ .error (.invalidInput "Missing 'users' list") := by
  decide

/-- C3 amended: in every handler that requires authorization
(`create_conversations`, `create_messages`, `read_conversations`,
`read_messages`, `read_users`) the checks run in the fixed order
(1) authorization gate, (2) required top-level lists present, (3)
per-element required fields; in particular a request both missing a
required list and unauthenticated fails with `PermissionDenied`, and
`read_conversations`, which validates nothing, goes straight from the
gate to its fetch. -/
theorem auth_gate_precedes_validation (req : Request) (login : Login) (db : Db) :
    (login.is_authenticated = false →
      (req.create_conversations login db).result =
        .error (.permissionDenied "Not authenticated") ∧
      (req.create_messages login db).result =
        .error (.permissionDenied "Not authenticated") ∧
      (req.read_conversations login db).result =
        .error (.permissionDenied "Not authenticated") ∧
      (req.read_messages login db).result =
        .error (.permissionDenied "Not authenticated") ∧
      (req.read_users login db).result =
        .error (.permissionDenied "Not authenticated")) ∧
    (login.is_authenticated = true →
      (req.users = none →
        (req.create_conversations login db).result =
          .error (.invalidInput "Missing 'users' list")) ∧
      (∀ us, req.users = some us → req.conversations = none →
        (req.create_conversations login db).result =
          .error (.invalidInput "Missing 'conversations' list")) ∧
      (∀ us c cs, req.users = some us → req.conversations = some (c :: cs) →
        c.name = none →
        (req.create_conversations login db).result =
          .error (.invalidInput "Missing 'name' field for 'conversation'")) ∧
      (req.messages = none →
        (req.create_messages login db).result =
          .error (.invalidInput "Missing 'messages' list")) ∧
      (∀ ms, req.messages = some ms → req.conversations = none →
        (req.create_messages login db).result =
          .error (.invalidInput "Missing 'conversations' list")) ∧
      (∀ m ms c cs, req.messages = some (m :: ms) →
        req.conversations = some (c :: cs) → m.data = none →
        (req.create_messages login db).result =
          .error (.invalidInput "Missing 'data' field for 'message'")) ∧
      (req.read_conversations login db =
        ⟨if db.execOk (.fetchConversation login.email) = true then .ok okResponse
          else .error .storageError, [.fetchConversation login.email]⟩) ∧
      (req.conversations = none →
        (req.read_messages login db).result =
          .error (.invalidInput "Missing 'conversations' list") ∧
        (req.read_users login db).result =
          .error (.invalidInput "Missing 'conversations' list")) ∧
      (∀ c cs, req.conversations = some (c :: cs) → c.id = none →
        (req.read_messages login db).result =
          .error (.invalidInput "Missing 'id' field for 'conversation'") ∧
        (req.read_users login db).result =
          .error (.invalidInput "Missing 'id' field for 'conversation'"))) := by
  constructor
  · intro h
    refine ⟨?_, ?_, ?_, ?_, ?_⟩ <;>
      simp [Request.create_conversations, Request.create_messages,
        Request.read_conversations, Request.read_messages, Request.read_users, h]
  · intro h
    refine ⟨?_, ?_, ?_, ?_, ?_, ?_, ?_, ?_, ?_⟩
    · intro hu
      simp [Request.create_conversations, h, hu]
    · intro us hu hc
      simp [Request.create_conversations, h, hu, hc]
    · intro us c cs hu hc hn
      simp [Request.create_conversations, h, hu, hc, hn]
    · intro hm
      simp [Request.create_messages, h, hm]
    · intro ms hm hc
      simp [Request.create_messages, h, hm, hc]
    · intro m ms c cs hm hc hd
      simp [Request.create_messages, h, hm, hc, createMessagesLoop, hd]
    · simp [Request.read_conversations, h]
      cases hdb : db.execOk (StorageOp.fetchConversation login.email) <;> simp [hdb]
    · intro hc
      constructor <;> simp [Request.read_messages, Request.read_users, h, hc]
    · intro c cs hc hid
      constructor <;> simp [Request.read_messages, Request.read_users, h, hc, hid]

/-- Witness for the amended C3: concrete requests exercising the gate,
each missing-list check and each per-element field check of all five
authorized handlers. -/
theorem auth_gate_precedes_validation_witness :
    (Request.create_conversations ⟨.Create, .Conversations, none, none, none⟩ ⟨"", false⟩
      sampleDbNone).result = .error (.permissionDenied "Not authenticated") ∧
    (Request.read_users ⟨.Read, .Users, none, none, none⟩ ⟨"", false⟩
      sampleDbNone).result = .error (.permissionDenied "Not authenticated") ∧
    (Request.create_conversations ⟨.Create, .Conversations, none, none, none⟩ ⟨"a", true⟩
      sampleDbNone).result = .error (.invalidInput "Missing 'users' list") ∧
    (Request.create_conversations ⟨.Create, .Conversations, some [], none, none⟩
      ⟨"a", true⟩ sampleDbNone).result =
      .error (.invalidInput "Missing 'conversations' list") ∧
    (Request.create_conversations
      ⟨.Create, .Conversations, some [], none, some [⟨none, none⟩]⟩ ⟨"a", true⟩
      sampleDbNone).result =
      .error (.invalidInput "Missing 'name' field for 'conversation'") ∧
    (Request.create_messages ⟨.Create, .Messages, none, none, none⟩ ⟨"a", true⟩
      sampleDbNone).result = .error (.invalidInput "Missing 'messages' list") ∧
    (Request.create_messages ⟨.Create, .Messages, none, some [], none⟩ ⟨"a", true⟩
      sampleDbNone).result = .error (.invalidInput "Missing 'conversations' list") ∧
    (Request.create_messages
      ⟨.Create, .Messages, none, some [⟨none, none, none, none⟩], some [⟨some 1, none⟩]⟩
      ⟨"a", true⟩ sampleDbNone).result =
      .error (.invalidInput "Missing 'data' field for 'message'") ∧
    Request.read_conversations ⟨.Read, .Conversations, none, none, none⟩ ⟨"a", true⟩
      sampleDbNone =
      ⟨if sampleDbNone.execOk (.fetchConversation "a") = true then .ok okResponse
        else .error .storageError, [.fetchConversation "a"]⟩ ∧
    (Request.read_messages ⟨.Read, .Messages, none, none, none⟩ ⟨"a", true⟩
      sampleDbNone).result = .error (.invalidInput "Missing 'conversations' list") ∧
    (Request.read_users ⟨.Read, .Users, none, none, none⟩ ⟨"a", true⟩
      sampleDbNone).result = .error (.invalidInput "Missing 'conversations' list") ∧
    (Request.read_messages ⟨.Read, .Messages, none, none, some [⟨none, none⟩]⟩
      ⟨"a", true⟩ sampleDbNone).result =
      .error (.invalidInput "Missing 'id' field for 'conversation'") ∧
    (Request.read_users ⟨.Read, .Users, none, none, some [⟨none, none⟩]⟩ ⟨"a", true⟩
      sampleDbNone).result =
      .error (.invalidInput "Missing 'id' field for 'conversation'") :=
  ⟨((auth_gate_precedes_validation ⟨.Create, .Conversations, none, none, none⟩
      ⟨"", false⟩ sampleDbNone).1 rfl).1,
   ((auth_gate_precedes_validation ⟨.Read, .Users, none, none, none⟩ ⟨"", false⟩
      sampleDbNone).1 rfl).2.2.2.2,
   ((auth_gate_precedes_validation ⟨.Create, .Conversations, none, none, none⟩
      ⟨"a", true⟩ sampleDbNone).2 rfl).1 rfl,
   ((auth_gate_precedes_validation ⟨.Create, .Conversations, some [], none, none⟩
      ⟨"a", true⟩ sampleDbNone).2 rfl).2.1 [] rfl rfl,
   ((auth_gate_precedes_validation
      ⟨.Create, .Conversations, some [], none, some [⟨none, none⟩]⟩ ⟨"a", true⟩
      sampleDbNone).2 rfl).2.2.1 [] ⟨none, none⟩ [] rfl rfl rfl,
   ((auth_gate_precedes_validation ⟨.Create, .Messages, none, none, none⟩ ⟨"a", true⟩
      sampleDbNone).2 rfl).2.2.2.1 rfl,
   ((auth_gate_precedes_validation ⟨.Create, .Messages, none, some [], none⟩
      ⟨"a", true⟩ sampleDbNone).2 rfl).2.2.2.2.1 [] rfl rfl,
   ((auth_gate_precedes_validation
      ⟨.Create, .Messages, none, some [⟨none, none, none, none⟩], some [⟨some 1, none⟩]⟩
      ⟨"a", true⟩ sampleDbNone).2 rfl).2.2.2.2.2.1 ⟨none, none, none, none⟩ []
      ⟨some 1, none⟩ [] rfl rfl rfl,
   ((auth_gate_precedes_validation ⟨.Read, .Conversations, none, none, none⟩
      ⟨"a", true⟩ sampleDbNone).2 rfl).2.2.2.2.2.2.1,
   (((auth_gate_precedes_validation ⟨.Read, .Messages, none, none, none⟩ ⟨"a", true⟩
      sampleDbNone).2 rfl).2.2.2.2.2.2.2.1 rfl).1,
   (((auth_gate_precedes_validation ⟨.Read, .Users, none, none, none⟩ ⟨"a", true⟩
      sampleDbNone).2 rfl).2.2.2.2.2.2.2.1 rfl).2,
   (((auth_gate_precedes_validation ⟨.Read, .Messages, none, none, some [⟨none, none⟩]⟩
      ⟨"a", true⟩ sampleDbNone).2 rfl).2.2.2.2.2.2.2.2 ⟨none, none⟩ [] rfl rfl).1,
   (((auth_gate_precedes_validation ⟨.Read, .Users, none, none, some [⟨none, none⟩]⟩
      ⟨"a", true⟩ sampleDbNone).2 rfl).2.2.2.2.2.2.2.2 ⟨none, none⟩ [] rfl rfl).2⟩

/-- C10: every handler that uses the first element of a list indexes it
without checking non-emptiness, so a present-but-empty `users` list
(`verify_users`) or `conversations` list (`create_conversations`,
`create_messages`, `read_messages`, `read_users`) reaches the
index-out-of-bounds branch of the embedding (the Rust panic), not an
`InvalidInput` failure. -/
theorem handlers_index_empty_list_unchecked :
    (∀ (argon2 : Argon2) (req : Request) (login : Login) (db : Db),
      req.users = some [] →
      req.verify_users argon2 login db = ⟨.error .indexOutOfBounds, login, []⟩) ∧
    (∀ (req : Request) (login : Login) (db : Db) (us : List User),
      login.is_authenticated = true → req.users = some us → req.conversations = some [] →
      req.create_conversations login db = ⟨.error .indexOutOfBounds, []⟩) ∧
    (∀ (req : Request) (login : Login) (db : Db) (ms : List Message),
      login.is_authenticated = true → req.messages = some ms →
      req.conversations = some [] →
      req.create_messages login db = ⟨.error .indexOutOfBounds, []⟩) ∧
    (∀ (req : Request) (login : Login) (db : Db),
      login.is_authenticated = true → req.conversations = some [] →
      req.read_messages login db = ⟨.error .indexOutOfBounds, []⟩) ∧
    (∀ (req : Request) (login : Login) (db : Db),
      login.is_authenticated = true → req.conversations = some [] →
      req.read_users login db = ⟨.error .indexOutOfBounds, []⟩) := by
  refine ⟨?_, ?_, ?_, ?_, ?_⟩
  · intro argon2 req login db hu
    simp [Request.verify_users, hu]
  · intro req login db us h hu hc
    simp [Request.create_conversations, h, hu, hc]
  · intro req login db ms h hm hc
    simp [Request.create_messages, h, hm, hc]
  · intro req login db h hc
    simp [Request.read_messages, h, hc]
  · intro req login db h hc
    simp [Request.read_users, h, hc]

/-- Witness for C10: each empty-list panic branch reached at a concrete
request. -/
theorem handlers_index_empty_list_unchecked_witness :
    Request.verify_users sampleArgon ⟨.Verify, .Users, some [], none, none⟩ ⟨"", false⟩
      sampleDbNone = ⟨.error .indexOutOfBounds, ⟨"", false⟩, []⟩ ∧
    Request.create_conversations ⟨.Create, .Conversations, some [], none, some []⟩ ⟨"a", true⟩
      sampleDbNone = ⟨.error .indexOutOfBounds, []⟩ ∧
    Request.create_messages ⟨.Create, .Messages, none, some [], some []⟩ ⟨"a", true⟩
      sampleDbNone = ⟨.error .indexOutOfBounds, []⟩ ∧
    Request.read_messages ⟨.Read, .Messages, none, none, some []⟩ ⟨"a", true⟩
      sampleDbNone = ⟨.error .indexOutOfBounds, []⟩ ∧
    Request.read_users ⟨.Read, .Users, none, none, some []⟩ ⟨"a", true⟩
      sampleDbNone = ⟨.error .indexOutOfBounds, []⟩ :=
  ⟨handlers_index_empty_list_unchecked.1 _ _ _ _ rfl,
   handlers_index_empty_list_unchecked.2.1 _ _ _ [] rfl rfl rfl,
   handlers_index_empty_list_unchecked.2.2.1 _ _ _ [] rfl rfl rfl,
   handlers_index_empty_list_unchecked.2.2.2.1 _ _ _ rfl rfl,
   handlers_index_empty_list_unchecked.2.2.2.2 _ _ _ rfl rfl⟩

/-- C2: for a Verify-Users request whose first user element carries an
email with a stored credential (valid-UTF-8 salt, as every credential
produced by `Password::hash` has) and a plaintext password: if the
argon2i digest of the submitted plaintext under the stored salt equals
the stored hash, `verify_users` authenticates the session with that
email and returns the success response; if it differs, it fails with
`PermissionDenied "Invalid password"` and the session is unchanged, its
`is_authenticated` flag still false. -/
theorem verify_users_password_check (argon2 : Argon2) (req : Request) (login : Login)
    (db : Db) (user : User) (rest : List User) (email pass : String)
    (hash salt : List Nat)
    (hu : req.users = some (user :: rest))
    (he : user.email = some email) (hp : user.password = some pass)
    (hc : db.credential email = some (hash, salt))
    (hs : isValidUtf8 salt = true)
    (hl : login.is_authenticated = false) :
    (argon2 pass salt = hash →
      req.verify_users argon2 login db =
        ⟨.ok okResponse, Login.authenticate login email, [.fetchCredential email]⟩) ∧
    (argon2 pass salt ≠ hash →
      req.verify_users argon2 login db =
        ⟨.error (.permissionDenied "Invalid password"), login, [.fetchCredential email]⟩ ∧
      (req.verify_users argon2 login db).login.is_authenticated = false) := by
  constructor
  · intro heq
    simp [Request.verify_users, hu, he, hp, hc, Password.is_valid, hs, heq]
  · intro hne
    have hd : decide (argon2 pass salt = hash) = false := decide_eq_false hne
    simp [Request.verify_users, hu, he, hp, hc, Password.is_valid, hs, hd, hl]

/-- Witness for C2: both branches at a concrete stored credential. -/
theorem verify_users_password_check_witness :
    Request.verify_users sampleArgon (sampleVerifyReq "b@x" "right") ⟨"", false⟩ sampleDb =
      ⟨.ok okResponse, ⟨"b@x", true⟩, [.fetchCredential "b@x"]⟩ ∧
    Request.verify_users sampleArgon (sampleVerifyReq "b@x" "wrong") ⟨"", false⟩ sampleDb =
      ⟨.error (.permissionDenied "Invalid password"), ⟨"", false⟩, [.fetchCredential "b@x"]⟩ :=
  ⟨(verify_users_password_check sampleArgon _ _ sampleDb _ [] "b@x" "right" [1] sampleSalt
      rfl rfl rfl (by decide) (by decide) rfl).1 (by decide),
   ((verify_users_password_check sampleArgon _ _ sampleDb _ [] "b@x" "wrong" [1] sampleSalt
      rfl rfl rfl (by decide) (by decide) rfl).2 (by decide)).1⟩

/-- C5 counterexample: an unknown email fails with the storage error
while a wrong password for a stored email fails with `PermissionDenied
"Invalid password"` — two different errors, refuting the claim that
`verify_users` collapses both failures into one message. -/
theorem verify_errors_not_collapsed_counterexample :
    (Request.verify_users sampleArgon (sampleVerifyReq "a@x" "right") ⟨"", false⟩
      sampleDb).result = .error .storageError ∧
    (Request.verify_users sampleArgon (sampleVerifyReq "b@x" "wrong") ⟨"", false⟩
      sampleDb).result = .error (.permissionDenied "Invalid password") ∧
    (Request.verify_users sampleArgon (sampleVerifyReq "a@x" "right") ⟨"", false⟩
      sampleDb).result ≠
      (Request.verify_users sampleArgon (sampleVerifyReq "b@x" "wrong") ⟨"", false⟩
        sampleDb).result := by
  decide

/-- C5 amended: the two Verify-Users failure modes are distinguishable:
an email with no stored credential yields the propagated storage
(row-not-found) error, a wrong password for a stored email yields
`PermissionDenied "Invalid password"`, and the two results differ. -/
theorem verify_failure_modes_distinguishable (argon2 : Argon2) (req1 req2 : Request)
    (login1 login2 : Login) (db : Db) (u1 u2 : User) (r1 r2 : List User)
    (e1 e2 p1 p2 : String) (hash salt : List Nat)
    (hu1 : req1.users = some (u1 :: r1)) (he1 : u1.email = some e1)
    (hp1 : u1.password = some p1) (hc1 : db.credential e1 = none)
    (hu2 : req2.users = some (u2 :: r2)) (he2 : u2.email = some e2)
    (hp2 : u2.password = some p2) (hc2 : db.credential e2 = some (hash, salt))
    (hs : isValidUtf8 salt = true) (hw : argon2 p2 salt ≠ hash) :
    (req1.verify_users argon2 login1 db).result = .error .storageError ∧
    (req2.verify_users argon2 login2 db).result =
      .error (.permissionDenied "Invalid password") ∧
    (req1.verify_users argon2 login1 db).result ≠
      (req2.verify_users argon2 login2 db).result := by
  have h1 : (req1.verify_users argon2 login1 db).result = .error .storageError := by
    simp [Request.verify_users, hu1, he1, hp1, hc1]
  have hd : decide (argon2 p2 salt = hash) = false := decide_eq_false hw
  have h2 : (req2.verify_users argon2 login2 db).result =
      .error (.permissionDenied "Invalid password") := by
    simp [Request.verify_users, hu2, he2, hp2, hc2, Password.is_valid, hs, hd]
  refine ⟨h1, h2, ?_⟩
  rw [h1, h2]
  decide

/-- Witness for the amended C5 at a concrete pair of requests. -/
theorem verify_failure_modes_distinguishable_witness :
    (Request.verify_users sampleArgon (sampleVerifyReq "a@x" "right") ⟨"", false⟩
      sampleDb).result = .error .storageError ∧
    (Request.verify_users sampleArgon (sampleVerifyReq "b@x" "wrong") ⟨"c", true⟩
      sampleDb).result = .error (.permissionDenied "Invalid password") ∧
    (Request.verify_users sampleArgon (sampleVerifyReq "a@x" "right") ⟨"", false⟩
      sampleDb).result ≠
      (Request.verify_users sampleArgon (sampleVerifyReq "b@x" "wrong") ⟨"c", true⟩
        sampleDb).result :=
  verify_failure_modes_distinguishable sampleArgon _ _ ⟨"", false⟩ ⟨"c", true⟩ sampleDb
    _ _ [] [] "a@x" "b@x" "right" "wrong" [1] sampleSalt
    rfl rfl rfl (by decide) rfl rfl rfl (by decide) (by decide) (by decide)

/-- C6 counterexample: `Password::hash` fails (returns an error) when
the 32 generated random bytes are not valid UTF-8, e.g. 32 bytes of
0xFF, refuting "hash does not fail for any value of the generated
bytes". -/
theorem hash_fails_on_invalid_utf8_counterexample :
    Password.hashPassword sampleArgon "pw" (List.replicate 32 255) = none := by
  decide

/-- C6 amended: `Password::hash` succeeds exactly when the generated
bytes are valid UTF-8; on success the credential's salt is exactly the
generated bytes and its hash is the argon2i digest of (plaintext,
salt); on non-UTF-8 bytes it fails. -/
theorem hash_salt_and_digest (argon2 : Argon2) (password : String) (bytes : List Nat) :
    (isValidUtf8 bytes = true →
      Password.hashPassword argon2 password bytes =
        some ⟨argon2 password bytes, bytes⟩) ∧
    (isValidUtf8 bytes = false → Password.hashPassword argon2 password bytes = none) := by
  constructor
  · intro h
    simp [Password.hashPassword, h]
  · intro h
    simp [Password.hashPassword, h]

/-- Witness for the amended C6 at a concrete valid-UTF-8 salt. -/
theorem hash_salt_and_digest_witness :
    Password.hashPassword sampleArgon "pw" sampleSalt =
      some ⟨sampleArgon "pw" sampleSalt, sampleSalt⟩ :=
  (hash_salt_and_digest sampleArgon "pw" sampleSalt).1 (by decide)

/-- C7: if `Password::hash(p)` succeeds with credential `c` then
`c.is_valid(p)` returns true, and for any plaintext `q` whose argon2i
digest under `c`'s salt differs from `p`'s, `c.is_valid(q)` returns
false. -/
theorem hash_verify_roundtrip (argon2 : Argon2) (p : String) (bytes : List Nat)
    (c : Password) (h : Password.hashPassword argon2 p bytes = some c) :
    Password.is_valid argon2 c p = some true ∧
    (∀ q : String, argon2 q c.salt ≠ argon2 p c.salt →
      Password.is_valid argon2 c q = some false) := by
  have hv : isValidUtf8 bytes = true := by
    by_contra hvn
    simp [Password.hashPassword, Bool.not_eq_true] at h
    simp [Bool.not_eq_true] at hvn
    simp [hvn] at h
  have hc : c = ⟨argon2 p bytes, bytes⟩ := by
    simp [Password.hashPassword, hv] at h
    exact h.symm
  subst hc
  constructor
  · simp [Password.is_valid, hv]
  · intro q hq
    have hd : decide (argon2 q bytes = argon2 p bytes) = false := decide_eq_false hq
    simp [Password.is_valid, hv, hd]

/-- Witness for C7 at a concrete credential. -/
theorem hash_verify_roundtrip_witness :
    Password.is_valid sampleArgon ⟨[1], sampleSalt⟩ "right" = some true ∧
    Password.is_valid sampleArgon ⟨[1], sampleSalt⟩ "wrong" = some false :=
  ⟨(hash_verify_roundtrip sampleArgon "right" sampleSalt _ (by decide)).1,
   (hash_verify_roundtrip sampleArgon "right" sampleSalt _ (by decide)).2 "wrong"
     (by decide)⟩

lemma createUsersLoop_append (argon2 : Argon2) (rnd : Nat → List Nat) (db : Db)
    (hdb : ∀ op, db.execOk op = true) (hrnd : ∀ k, isValidUtf8 (rnd k) = true)
    (u : User) (rest : List User) (msg : String)
    (hbad : missingUserFieldMsg u = some msg) :
    ∀ (pre : List User) (k : Nat), (∀ v ∈ pre, userFieldsComplete v = true) →
      createUsersLoop argon2 rnd db k (pre ++ u :: rest) =
        (.error (.invalidInput msg), expectedUserWrites argon2 rnd k pre) := by
  intro pre
  induction pre with
  | nil =>
    intro k _
    cases hue : u.email with
    | none =>
      simp [missingUserFieldMsg, hue] at hbad
      simp [createUsersLoop, hue, expectedUserWrites, hbad]
    | some e =>
      cases hup : u.password with
      | none =>
        simp [missingUserFieldMsg, hue, hup] at hbad
        simp [createUsersLoop, hue, hup, expectedUserWrites, hbad]
      | some p =>
        cases hupk : u.public_key with
        | none =>
          simp [missingUserFieldMsg, hue, hup, hupk] at hbad
          simp [createUsersLoop, hue, hup, hupk, expectedUserWrites, hbad]
        | some pk =>
          simp [missingUserFieldMsg, hue, hup, hupk] at hbad
  | cons v pre ih =>
    intro k hc
    have hv : userFieldsComplete v = true := hc v (by simp)
    simp [userFieldsComplete, Bool.and_eq_true] at hv
    obtain ⟨⟨he, hp⟩, hpk⟩ := hv
    obtain ⟨e, he⟩ := Option.isSome_iff_exists.mp he
    obtain ⟨p, hp⟩ := Option.isSome_iff_exists.mp hp
    obtain ⟨pk, hpk⟩ := Option.isSome_iff_exists.mp hpk
    have hh : Password.hashPassword argon2 p (rnd k) =
        some ⟨argon2 p (rnd k), rnd k⟩ := by
      simp [Password.hashPassword, hrnd k]
    have hrec := ih (k + 1) (fun w hw => hc w (by simp [hw]))
    simp [createUsersLoop, he, hp, hpk, hh, hdb, hrec, expectedUserWrites]

/-- C8: for a Create-Users request whose element at position `i`
(= `pre.length`) is the first to miss `email`, `password` or
`public_key`, and whose storage writes and salt generations for the
prior elements succeed, `create_users` fails with `InvalidInput` naming
the first missing field, issues no write for that element or any later
one, and issues exactly one insert-user write per prior element
(`expectedUserWrites`), with no rollback. -/
theorem create_users_aborts_on_missing_field (argon2 : Argon2) (rnd : Nat → List Nat)
    (db : Db) (req : Request) (pre rest : List User) (u : User) (msg : String)
    (hdb : ∀ op, db.execOk op = true)
    (hrnd : ∀ k, isValidUtf8 (rnd k) = true)
    (hu : req.users = some (pre ++ u :: rest))
    (hpre : ∀ v ∈ pre, userFieldsComplete v = true)
    (hbad : missingUserFieldMsg u = some msg) :
    Request.create_users argon2 rnd req db =
      ⟨.error (.invalidInput msg), expectedUserWrites argon2 rnd 0 pre⟩ := by
  have hloop := createUsersLoop_append argon2 rnd db hdb hrnd u rest msg hbad pre 0 hpre
  simp [Request.create_users, hu, hloop]

/-- Witness for C8: one complete user followed by one missing
`public_key`. -/
theorem create_users_aborts_on_missing_field_witness :
    Request.create_users sampleArgon (fun _ => sampleSalt)
      ⟨.Create, .Users, some [⟨some "a@x", some "pw", some [5]⟩, ⟨some "c@x", some "pw", none⟩],
        none, none⟩ sampleDbNone =
      ⟨.error (.invalidInput "Missing 'public_key' field for 'user'"),
        [.insertUser "a@x" [5] (sampleArgon "pw" sampleSalt) sampleSalt]⟩ :=
  create_users_aborts_on_missing_field sampleArgon (fun _ => sampleSalt) sampleDbNone
    _ [⟨some "a@x", some "pw", some [5]⟩] [] ⟨some "c@x", some "pw", none⟩ _
    (fun _ => rfl) (fun _ => (by decide : isValidUtf8 sampleSalt = true)) rfl (by decide) rfl

/-- C9 counterexample: an authenticated Create-Messages request with a
valid message whose `conversations[0]` lacks `id` does not succeed — it
fails with `InvalidInput "Missing 'id' field for 'message'"`, refuting
the claim that the id is not validated. -/
theorem create_messages_id_required_counterexample :
    Request.create_messages
      ⟨.Create, .Messages, none, some [⟨some [1], some "text", some 0, some [2]⟩],
        some [⟨none, none⟩]⟩ ⟨"a@x", true⟩ sampleDbNone =
      ⟨.error (.invalidInput "Missing 'id' field for 'message'"), []⟩ ∧
    (Request.create_messages
      ⟨.Create, .Messages, none, some [⟨some [1], some "text", some 0, some [2]⟩],
        some [⟨none, none⟩]⟩ ⟨"a@x", true⟩ sampleDbNone).result ≠ .ok okResponse := by
  decide

/-- C9 amended: `create_messages` does validate `conversations[0].id`
(inside the per-message loop, with an error message that says
'message'), but the id's value is never bound into the stored row: the
per-message loop issues identical storage operations for any two
conversations whose `id` is present. -/
theorem create_messages_id_checked_but_unused (login : Login) (db : Db) :
    (∀ (req : Request) (m : Message) (ms : List Message) (c : Conversation)
        (cs : List Conversation),
      login.is_authenticated = true →
      req.messages = some (m :: ms) → req.conversations = some (c :: cs) →
      m.data.isSome = true → m.media_type.isSome = true → m.timestamp.isSome = true →
      m.signature.isSome = true → c.id = none →
      req.create_messages login db =
        ⟨.error (.invalidInput "Missing 'id' field for 'message'"), []⟩) ∧
    (∀ (c1 c2 : Conversation) (ms : List Message),
      c1.id.isSome = true → c2.id.isSome = true →
      createMessagesLoop login db c1 ms = createMessagesLoop login db c2 ms) := by
  constructor
  · intro req m ms c cs hl hm hc hd hmt hts hsg hid
    obtain ⟨d, hd⟩ := Option.isSome_iff_exists.mp hd
    obtain ⟨mt, hmt⟩ := Option.isSome_iff_exists.mp hmt
    obtain ⟨ts, hts⟩ := Option.isSome_iff_exists.mp hts
    obtain ⟨sg, hsg⟩ := Option.isSome_iff_exists.mp hsg
    simp [Request.create_messages, hl, hm, hc, createMessagesLoop, hd, hmt, hts, hsg, hid]
  · intro c1 c2 ms h1 h2
    obtain ⟨i1, h1⟩ := Option.isSome_iff_exists.mp h1
    obtain ⟨i2, h2⟩ := Option.isSome_iff_exists.mp h2
    induction ms with
    | nil => simp [createMessagesLoop]
    | cons m ms ih =>
      cases hd : m.data with
      | none => simp [createMessagesLoop, hd]
      | some d =>
        cases hmt : m.media_type with
        | none => simp [createMessagesLoop, hd, hmt]
        | some mt =>
          cases hts : m.timestamp with
          | none => simp [createMessagesLoop, hd, hmt, hts]
          | some ts =>
            cases hsg : m.signature with
            | none => simp [createMessagesLoop, hd, hmt, hts, hsg]
            | some sg =>
              simp [createMessagesLoop, hd, hmt, hts, hsg, h1, h2, ih]

/-- Witness for the amended C9: the id-missing failure and the
id-value independence at concrete inputs. -/
theorem create_messages_id_checked_but_unused_witness :
    Request.create_messages
        ⟨.Create, .Messages, none, some [⟨some [1], some "text", some 0, some [2]⟩],
          some [⟨none, none⟩]⟩ ⟨"a@x", true⟩ sampleDbNone =
      ⟨.error (.invalidInput "Missing 'id' field for 'message'"), []⟩ ∧
    createMessagesLoop ⟨"a@x", true⟩ sampleDbNone ⟨some 1, none⟩
        [⟨some [1], some "text", some 0, some [2]⟩] =
      createMessagesLoop ⟨"a@x", true⟩ sampleDbNone ⟨some 2, none⟩
        [⟨some [1], some "text", some 0, some [2]⟩] :=
  ⟨(create_messages_id_checked_but_unused ⟨"a@x", true⟩ sampleDbNone).1 _ _ [] _ []
      rfl rfl rfl rfl rfl rfl rfl rfl,
   (create_messages_id_checked_but_unused ⟨"a@x", true⟩ sampleDbNone).2 _ _ _ rfl rfl⟩

lemma decodeList_ok_of_all {α : Type} (l : List (Option α))
    (h : l.all Option.isSome = true) : ∃ as, decodeList l = .ok as := by
  induction l with
  | nil => exact ⟨[], rfl⟩
  | cons o rest ih =>
    rw [List.all_cons, Bool.and_eq_true] at h
    cases o with
    | none => exact absurd h.1 (by simp)
    | some a =>
      obtain ⟨as, has⟩ := ih h.2
      exact ⟨a :: as, by simp [decodeList, has, Except.map]⟩

lemma decodeListField_ok {α : Type} (o : Option (List (Option α)))
    (h : listFieldOk o = true) : ∃ v, decodeListField o = .ok v := by
  cases o with
  | none => exact ⟨none, rfl⟩
  | some l =>
    obtain ⟨as, has⟩ := decodeList_ok_of_all l (by simpa [listFieldOk] using h)
    exact ⟨some as, by simp [decodeListField, has, Except.map]⟩

/-- C4 counterexample: a `function` string with fewer than two
whitespace tokens does not fail with an `InvalidInput` error
identifying an unrecognized token — `split_function` indexes the token
vector unchecked, so the parse reaches the index-out-of-bounds (panic)
branch instead. -/
theorem from_json_single_token_counterexample :
    Request.from_json ⟨some "CREATE", none, none, none⟩ = .error .indexOutOfBounds ∧
    Request.from_json ⟨some "CREATE", none, none, none⟩ ≠
      .error (.invalidInput "Unknown request") ∧
    Request.from_json ⟨some "CREATE", none, none, none⟩ ≠
      .error (.invalidInput "Unknown target") := by
  decide

/-- C4 amended: for every envelope whose `function` field is a string
and whose present entity lists all decode, if the string has at least
two whitespace-delimited tokens then the parse succeeds exactly when
the first token is in {VERIFY, CREATE, READ, UPDATE, DELETE} and the
second in {CONVERSATIONS, MESSAGES, USERS}; an unknown first token
fails with `InvalidInput "Unknown request"`, a known first and unknown
second token with `InvalidInput "Unknown target"`; but a string with
fewer than two tokens is an unchecked index (panic), not an
`InvalidInput` failure. -/
theorem from_json_token_classification (env : Envelope) (f : String)
    (hf : env.function = some f) (hd : envDecodesOk env = true) :
    ((splitAsciiWhitespace f).length < 2 →
      Request.from_json env = .error .indexOutOfBounds) ∧
    (∀ op tg rest, splitAsciiWhitespace f = op :: tg :: rest →
      ((Request.from_json env).isOk = true ↔
        ((op = "VERIFY" ∨ op = "CREATE" ∨ op = "READ" ∨ op = "UPDATE" ∨ op = "DELETE") ∧
         (tg = "CONVERSATIONS" ∨ tg = "MESSAGES" ∨ tg = "USERS"))) ∧
      (¬(op = "VERIFY" ∨ op = "CREATE" ∨ op = "READ" ∨ op = "UPDATE" ∨ op = "DELETE") →
        Request.from_json env = .error (.invalidInput "Unknown request")) ∧
      ((op = "VERIFY" ∨ op = "CREATE" ∨ op = "READ" ∨ op = "UPDATE" ∨ op = "DELETE") →
        ¬(tg = "CONVERSATIONS" ∨ tg = "MESSAGES" ∨ tg = "USERS") →
        Request.from_json env = .error (.invalidInput "Unknown target"))) := by
  simp [envDecodesOk, Bool.and_eq_true] at hd
  obtain ⟨⟨hdu, hdm⟩, hdc⟩ := hd
  obtain ⟨vu, hvu⟩ := decodeListField_ok env.users hdu
  obtain ⟨vm, hvm⟩ := decodeListField_ok env.messages hdm
  obtain ⟨vc, hvc⟩ := decodeListField_ok env.conversations hdc
  constructor
  · intro hlen
    cases hsp : splitAsciiWhitespace f with
    | nil => simp [Request.from_json, hf, Request.split_function, hsp]
    | cons t ts =>
      cases ts with
      | nil => simp [Request.from_json, hf, Request.split_function, hsp]
      | cons t2 ts2 =>
        rw [hsp] at hlen
        simp at hlen
        omega
  · intro op tg rest hsp
    have hsf : Request.split_function f = .ok (op, tg) := by
      simp [Request.split_function, hsp]
    by_cases hop : op = "VERIFY" ∨ op = "CREATE" ∨ op = "READ" ∨ op = "UPDATE" ∨
        op = "DELETE"
    · have ho : ∃ o, parseOperation op = .ok o := by
        rcases hop with rfl | rfl | rfl | rfl | rfl <;> exact ⟨_, rfl⟩
      obtain ⟨o, ho⟩ := ho
      by_cases htg : tg = "CONVERSATIONS" ∨ tg = "MESSAGES" ∨ tg = "USERS"
      · have ht : ∃ t, parseTarget tg = .ok t := by
          rcases htg with rfl | rfl | rfl <;> exact ⟨_, rfl⟩
        obtain ⟨t, ht⟩ := ht
        have hj : Request.from_json env =
            .ok ⟨o, t, vu, vm, vc⟩ := by
          simp [Request.from_json, hf, hsf, ho, ht, hvu, hvm, hvc]
        refine ⟨?_, ?_, ?_⟩
        · simp [hj, Except.isOk, Except.toBool, hop, htg]
        · intro h
          exact absurd hop h
        · intro _ h
          exact absurd htg h
      · push_neg at htg
        have ht : parseTarget tg = .error (.invalidInput "Unknown target") := by
          simp [parseTarget, htg.1, htg.2.1, htg.2.2]
        have hj : Request.from_json env = .error (.invalidInput "Unknown target") := by
          simp [Request.from_json, hf, hsf, ho, ht]
        refine ⟨?_, ?_, ?_⟩
        · simp [hj, Except.isOk, Except.toBool]
          intro h
          exact htg
        · intro h
          exact absurd hop h
        · intro _ _
          exact hj
    · push_neg at hop
      have ho : parseOperation op = .error (.invalidInput "Unknown request") := by
        simp [parseOperation, hop.1, hop.2.1, hop.2.2.1, hop.2.2.2.1, hop.2.2.2.2]
      have hj : Request.from_json env = .error (.invalidInput "Unknown request") := by
        simp [Request.from_json, hf, hsf, ho]
      refine ⟨?_, ?_, ?_⟩
      · simp [hj, Except.isOk, Except.toBool]
        intro h
        rcases h with h | h | h | h | h <;> simp [h] at hop
      · intro _
        exact hj
      · intro h _
        rcases h with h | h | h | h | h <;> simp [h] at hop

/-- Witness for the amended C4: each classification branch at a
concrete `function` string. -/
theorem from_json_token_classification_witness :
    Request.from_json ⟨some "X Y", none, none, none⟩ =
      .error (.invalidInput "Unknown request") ∧
    Request.from_json ⟨some "CREATE X", none, none, none⟩ =
      .error (.invalidInput "Unknown target") ∧
    (Request.from_json ⟨some "CREATE USERS", none, none, none⟩).isOk = true ∧
    Request.from_json ⟨some "CREATE", none, none, none⟩ = .error .indexOutOfBounds :=
  ⟨((from_json_token_classification ⟨some "X Y", none, none, none⟩ "X Y" rfl
      (by decide)).2 "X" "Y" [] (by decide)).2.1 (by decide),
   ((from_json_token_classification ⟨some "CREATE X", none, none, none⟩ "CREATE X" rfl
      (by decide)).2 "CREATE" "X" [] (by decide)).2.2 (by decide) (by decide),
   (((from_json_token_classification ⟨some "CREATE USERS", none, none, none⟩
      "CREATE USERS" rfl (by decide)).2 "CREATE" "USERS" [] (by decide)).1).mpr
      (by decide),
   (from_json_token_classification ⟨some "CREATE", none, none, none⟩ "CREATE" rfl
      (by decide)).1 (by decide)⟩

end EchoServer
